import Mathlib

/-
Verification of the CLTK Stanza wrapper (`src/cltkv1/dependency/stanza.py`).

The wrapper is embedded shallowly: the constructor `StanzaWrapper.init`
becomes a pure function from the external environment (the two external
lookup tables of the stanza library, the home directory, and two
filesystem oracles: one giving file existence before the download side
effect, one giving it after) to either a constructor error or the
finished wrapper record, paired with the list of externally visible side
effects (printed download notice, downloader invocation, pipeline
construction) in the order the code performs them.  The class-level
cache `StanzaWrapper.nlps` becomes an association list threaded through
`get_nlp`; structural equality of the returned record stands in for
reference equality of the cached Python object.
-/

namespace CltkStanza

/-- Arguments with which `stanza.Pipeline` is constructed in
`StanzaWrapper._load_pipeline` (the pipeline object itself is opaque;
only its construction arguments are observable at this layer). -/
structure PipelineConfig where
  lang : String
  dir : String
  package : String
  processors : String
  logging_level : String
  use_gpu : Bool
  lemma_use_identity : Bool
deriving Repr, DecidableEq

/-- The errors the constructor can raise: `UnknownLanguageError`,
`UnimplementedLanguageError` (both from `cltkv1.core.exceptions`),
a plain Python `KeyError` (from a failed dict lookup, carrying a
description of the missing key), and `FileNotFoundError` (model file
still missing after the download attempt). -/
inductive CtorError where
  | unknownLanguage (language : String)
  | unimplementedLanguage (language : String) (treebank : String)
  | keyError (key : String)
  | fileNotFound (path : String)
deriving Repr, DecidableEq

/-- Externally visible side effects of construction, in order:
the multi-line console notice printed by `_download_model`, the call
`stanza.download(lang=..., package=...)`, and the call
`stanza.Pipeline(...)` in `_load_pipeline`. -/
inductive Event where
  | printNotice
  | download (lang : String) (package : String)
  | loadPipeline (config : PipelineConfig)
deriving Repr, DecidableEq

/-- The external environment the wrapper consumes: the stanza library
table `lang2lcode` (language name to stanza code), the stanza table
`default_treebanks` (stanza code to default treebank), and the home
directory that `os.path.expanduser` substitutes for the tilde. -/
structure Ext where
  lang2lcode : String → Option String
  default_treebanks : String → Option String
  homeDir : String

/-- The fields of a successfully constructed `StanzaWrapper` instance:
`language`, resolved `treebank`, resolved `stanza_code`,
`stanza_debug_level`, the computed `model_path`, and the arguments with
which the held pipeline `nlp` was constructed. -/
structure StanzaWrapper where
  language : String
  treebank : String
  stanza_code : String
  stanza_debug_level : String
  model_path : String
  nlp : PipelineConfig
deriving Repr, DecidableEq

/-- The dict `self.map_langs_cltk_stanza` assigned in `__init__`,
as a lookup function. -/
def map_langs_cltk_stanza (language : String) : Option String :=
  if language = "grc" then some "Ancient_Greek"
  else if language = "lat" then some "Latin"
  else if language = "chu" then some "Old_Church_Slavonic"
  else if language = "fro" then some "Old_French"
  else if language = "got" then some "Gothic"
  else none

/-- `StanzaWrapper.is_wrapper_available`: membership of the language in
`map_langs_cltk_stanza`. -/
def is_wrapper_available (language : String) : Bool :=
  (map_langs_cltk_stanza language).isSome

/-- `StanzaWrapper._get_stanza_code`: two-stage lookup, first through
`map_langs_cltk_stanza`, then through the external `lang2lcode`; each
stage raises a `KeyError` with a custom message when its entry is
missing. -/
def get_stanza_code (ext : Ext) (language : String) : Except CtorError String :=
  match map_langs_cltk_stanza language with
  | none =>
      .error (.keyError
        "Somehow StanzaWrapper.language got renamed to something invalid. This should never happen.")
  | some stanza_lang_name =>
      match ext.lang2lcode stanza_lang_name with
      | none => .error (.keyError "The CLTK map of ISO-to-Stanza is out of sync.")
      | some code => .ok code

/-- The dict `self.map_code_treebanks` assigned in `__init__`
(note: keyed by stanza code, with entries only for grc and la). -/
def map_code_treebanks (code : String) : Option (List String) :=
  if code = "grc" then some ["proiel", "perseus"]
  else if code = "la" then some ["perseus", "proiel", "ittb"]
  else none

/-- `StanzaWrapper._is_valid_treebank`: indexes `map_code_treebanks`
with the stanza code (a missing key raises a `KeyError` carrying that
key, as a Python dict index does), then tests membership. -/
def is_valid_treebank (stanza_code : String) (treebank : String) :
    Except CtorError Bool :=
  match map_code_treebanks stanza_code with
  | none => .error (.keyError stanza_code)
  | some possible_treebanks => .ok (possible_treebanks.contains treebank)

/-- Python truthiness of the `treebank` argument as tested by
`if self.treebank:` — `None` and the empty string are both falsy. -/
def treebank_truthy : Option String → Bool
  | none => false
  | some s => !(s = "")

/-- `StanzaWrapper._get_default_treebank`: indexes the external
`default_treebanks` table with the stanza code (a missing key raises a
`KeyError`). -/
def get_default_treebank (ext : Ext) (stanza_code : String) :
    Except CtorError String :=
  match ext.default_treebanks stanza_code with
  | none => .error (.keyError stanza_code)
  | some tb => .ok tb

/-- The treebank-resolution block of `__init__`: a truthy explicit
treebank is validated by `_is_valid_treebank` (invalid raises
`UnimplementedLanguageError`); a falsy one is replaced by the default
from `_get_default_treebank`. -/
def resolve_treebank (ext : Ext) (language : String) (stanza_code : String)
    (treebank : Option String) : Except CtorError String :=
  if treebank_truthy treebank then
    let tb := treebank.getD ""
    match is_valid_treebank stanza_code tb with
    | .error e => .error e
    | .ok true => .ok tb
    | .ok false => .error (.unimplementedLanguage language tb)
  else
    get_default_treebank ext stanza_code

/-- The `self.model_path` expression of `__init__`:
`os.path.expanduser` applied to
`~/stanza_resources/{stanza_code}/tokenize/{treebank}.pt`. -/
def model_path (ext : Ext) (stanza_code : String) (treebank : String) : String :=
  ext.homeDir ++ "/stanza_resources/" ++ stanza_code ++ "/tokenize/" ++ treebank ++ ".pt"

/-- `StanzaWrapper._load_pipeline`: the arguments passed to
`stanza.Pipeline`, with the reduced processor list and identity
lemmatization for Old French only. -/
def load_pipeline (ext : Ext) (language : String) (stanza_code : String)
    (treebank : String) (stanza_debug_level : String) : PipelineConfig :=
  let models_dir := ext.homeDir ++ "/stanza_resources/"
  if language = "fro" then
    { lang := stanza_code
      dir := models_dir
      package := treebank
      processors := "tokenize,pos,lemma"
      logging_level := stanza_debug_level
      use_gpu := true
      lemma_use_identity := true }
  else
    { lang := stanza_code
      dir := models_dir
      package := treebank
      processors := "tokenize,mwt,pos,lemma,depparse"
      logging_level := stanza_debug_level
      use_gpu := true
      lemma_use_identity := false }

/-- The record of instance attributes a successful `__init__` leaves
on the object (the `self.xxx = ...` assignments that survive to the
end of the constructor). -/
def built_wrapper (ext : Ext) (language stanza_code tb stanza_debug_level : String) :
    StanzaWrapper :=
  { language := language
    treebank := tb
    stanza_code := stanza_code
    stanza_debug_level := stanza_debug_level
    model_path := model_path ext stanza_code tb
    nlp := load_pipeline ext language stanza_code tb stanza_debug_level }

/-- `StanzaWrapper.__init__`.  `fs0` answers the file-existence check
`_is_model_present` before any download; `fs1` answers the re-check
inside `_download_model` after `stanza.download` ran.  Returns the
raised error or the constructed instance, together with the ordered
side-effect trace.  Note that `_download_model` passes
`lang=self.language` (the CLTK code) to the downloader, while the
checked path is built from the stanza code. -/
def StanzaWrapper.init (ext : Ext) (fs0 fs1 : String → Bool)
    (language : String) (treebank : Option String)
    (stanza_debug_level : String) :
    Except CtorError StanzaWrapper × List Event :=
  if !(is_wrapper_available language) then
    (.error (.unknownLanguage language), [])
  else
    match get_stanza_code ext language with
    | .error e => (.error e, [])
    | .ok stanza_code =>
      match resolve_treebank ext language stanza_code treebank with
      | .error e => (.error e, [])
      | .ok tb =>
        if fs0 (CltkStanza.model_path ext stanza_code tb) then
          (.ok (built_wrapper ext language stanza_code tb stanza_debug_level),
           [.loadPipeline (load_pipeline ext language stanza_code tb stanza_debug_level)])
        else if fs1 (CltkStanza.model_path ext stanza_code tb) then
          (.ok (built_wrapper ext language stanza_code tb stanza_debug_level),
           [.printNotice, .download language tb,
            .loadPipeline (load_pipeline ext language stanza_code tb stanza_debug_level)])
        else
          (.error (.fileNotFound (CltkStanza.model_path ext stanza_code tb)),
           [.printNotice, .download language tb])

/-- Number of downloader invocations in a side-effect trace. -/
def downloadCount (trace : List Event) : Nat :=
  trace.countP (fun e => match e with | .download _ _ => true | _ => false)

/-- Whether a constructor result is an `UnimplementedLanguageError`. -/
def resultIsUnimplementedLanguage : Except CtorError StanzaWrapper → Bool
  | .error (.unimplementedLanguage _ _) => true
  | _ => false

/-- The class-level dict `StanzaWrapper.nlps`, as an association list
keyed by language. -/
abbrev Cache := List (String × StanzaWrapper)

/-- `StanzaWrapper.get_nlp`: return the cached instance for the
language if present; otherwise construct one (with the default
`stanza_debug_level` of the constructor, `ERROR`), cache it, and return
it.  A constructor error propagates and leaves the cache unchanged. -/
def get_nlp (ext : Ext) (fs0 fs1 : String → Bool) (cache : Cache)
    (language : String) (treebank : Option String) :
    Except CtorError StanzaWrapper × Cache × List Event :=
  match cache.lookup language with
  | some nlp => (.ok nlp, cache, [])
  | none =>
    match StanzaWrapper.init ext fs0 fs1 language treebank "ERROR" with
    | (.ok nlp, trace) => (.ok nlp, (language, nlp) :: cache, trace)
    | (.error e, trace) => (.error e, cache, trace)

/-- Modelled from the spec: the external stanza tables, restricted to
the five supported languages, and a concrete home directory.  The spec
documents the stanza codes grc, la, cu, fro, got for the five language
names and the default treebank proiel for Ancient Greek; the remaining
default-treebank values are representative stand-ins (no claim depends
on them). -/
def specExt : Ext where
  lang2lcode := fun name =>
    if name = "Ancient_Greek" then some "grc"
    else if name = "Latin" then some "la"
    else if name = "Old_Church_Slavonic" then some "cu"
    else if name = "Old_French" then some "fro"
    else if name = "Gothic" then some "got"
    else none
  default_treebanks := fun code =>
    if code = "grc" then some "proiel"
    else if code = "la" then some "ittb"
    else if code = "cu" then some "proiel"
    else if code = "fro" then some "srcmf"
    else if code = "got" then some "proiel"
    else none
  homeDir := "/home/user"

/-- A constant filesystem oracle. -/
def fsConst (b : Bool) : String → Bool := fun _ => b

/-- Inversion for successful construction: a returned wrapper record
carries the input language and debug level, a stanza code produced by
`_get_stanza_code`, a treebank produced by the resolution block, the
model path built from those two, and a pipeline built by
`_load_pipeline` from them. -/
theorem init_ok_inversion (ext : Ext) (fs0 fs1 : String → Bool)
    (language : String) (treebank : Option String) (lvl : String)
    (w : StanzaWrapper) (trace : List Event)
    (h : StanzaWrapper.init ext fs0 fs1 language treebank lvl = (.ok w, trace)) :
    w.language = language ∧
    w.stanza_debug_level = lvl ∧
    get_stanza_code ext language = .ok w.stanza_code ∧
    resolve_treebank ext language w.stanza_code treebank = .ok w.treebank ∧
    w.model_path = model_path ext w.stanza_code w.treebank ∧
    w.nlp = load_pipeline ext language w.stanza_code w.treebank lvl := by
  unfold StanzaWrapper.init at h
  split at h
  · simp at h
  · split at h
    · simp at h
    · rename_i code hcode
      split at h
      · simp at h
      · rename_i tb htb
        split at h
        · rw [Prod.mk.injEq] at h
          obtain ⟨h1, h2⟩ := h
          rw [Except.ok.injEq] at h1
          subst h1
          exact ⟨rfl, rfl, hcode, htb, rfl, rfl⟩
        · split at h
          · rw [Prod.mk.injEq] at h
            obtain ⟨h1, h2⟩ := h
            rw [Except.ok.injEq] at h1
            subst h1
            exact ⟨rfl, rfl, hcode, htb, rfl, rfl⟩
          · simp at h

/-- Claim C3: for every language string outside the fixed supported set
grc, lat, chu, fro, got, and for every treebank argument and debug
level, construction raises `UnknownLanguageError` (and, the result being
exactly that error with an empty side-effect trace, never any other
error kind). -/
theorem C3_unknown_language (ext : Ext) (fs0 fs1 : String → Bool)
    (language : String) (treebank : Option String) (lvl : String)
    (h1 : language ≠ "grc") (h2 : language ≠ "lat") (h3 : language ≠ "chu")
    (h4 : language ≠ "fro") (h5 : language ≠ "got") :
    StanzaWrapper.init ext fs0 fs1 language treebank lvl =
      (.error (.unknownLanguage language), []) := by
  simp [StanzaWrapper.init, is_wrapper_available, map_langs_cltk_stanza,
    h1, h2, h3, h4, h5]

/-- Witness for C3 at the concrete unsupported language xxx. -/
theorem C3_unknown_language_witness :
    StanzaWrapper.init specExt (fsConst true) (fsConst true) "xxx" none "ERROR" =
      (.error (.unknownLanguage "xxx"), []) :=
  C3_unknown_language specExt (fsConst true) (fsConst true) "xxx" none "ERROR"
    (by decide) (by decide) (by decide) (by decide) (by decide)

/-- Counterexample to claim C1: chu is a supported language and the
string xxx is not a valid treebank for it, yet construction raises a
plain `KeyError` on the key cu (`map_code_treebanks` has entries only
for grc and la), not `UnimplementedLanguageError`. -/
theorem C1_counterexample :
    is_wrapper_available "chu" = true ∧
    StanzaWrapper.init specExt (fsConst true) (fsConst true) "chu" (some "xxx") "ERROR" =
      (.error (.keyError "cu"), []) ∧
    resultIsUnimplementedLanguage
      (StanzaWrapper.init specExt (fsConst true) (fsConst true)
        "chu" (some "xxx") "ERROR").1 = false :=
  ⟨rfl, rfl, rfl⟩

/-- Claim C1 (amended): for a supported language whose resolved stanza
code has an entry in `map_code_treebanks` (grc and la), every non-empty
treebank string outside that entry makes construction raise
`UnimplementedLanguageError`, with an empty side-effect trace — so
before any model-existence check or download. -/
theorem C1_amended_invalid_treebank (ext : Ext) (fs0 fs1 : String → Bool)
    (language name code tb lvl : String)
    (hmap : map_langs_cltk_stanza language = some name)
    (hcode : ext.lang2lcode name = some code)
    (hkey : code = "grc" ∨ code = "la")
    (hne : tb ≠ "")
    (hinvalid : tb ∉ (map_code_treebanks code).getD []) :
    StanzaWrapper.init ext fs0 fs1 language (some tb) lvl =
      (.error (.unimplementedLanguage language tb), []) := by
  have havail : is_wrapper_available language = true := by
    simp [is_wrapper_available, hmap]
  have hsc : get_stanza_code ext language = .ok code := by
    simp [get_stanza_code, hmap, hcode]
  rcases hkey with h | h
  · subst h
    have hinv : tb ∉ (["proiel", "perseus"] : List String) := by
      simpa [map_code_treebanks] using hinvalid
    simp only [List.mem_cons, List.not_mem_nil, not_or, or_false] at hinv
    obtain ⟨hv1, hv2⟩ := hinv
    have hb1 : (tb == "proiel") = false := beq_eq_false_iff_ne.mpr hv1
    have hb2 : (tb == "perseus") = false := beq_eq_false_iff_ne.mpr hv2
    simp [StanzaWrapper.init, havail, hsc, resolve_treebank, treebank_truthy,
      hne, is_valid_treebank, map_code_treebanks, List.contains, List.elem,
      hb1, hb2]
  · subst h
    have hinv : tb ∉ (["perseus", "proiel", "ittb"] : List String) := by
      simpa [map_code_treebanks] using hinvalid
    simp only [List.mem_cons, List.not_mem_nil, not_or, or_false] at hinv
    obtain ⟨hv1, hv2, hv3⟩ := hinv
    have hb1 : (tb == "perseus") = false := beq_eq_false_iff_ne.mpr hv1
    have hb2 : (tb == "proiel") = false := beq_eq_false_iff_ne.mpr hv2
    have hb3 : (tb == "ittb") = false := beq_eq_false_iff_ne.mpr hv3
    simp [StanzaWrapper.init, havail, hsc, resolve_treebank, treebank_truthy,
      hne, is_valid_treebank, map_code_treebanks, List.contains, List.elem,
      hb1, hb2, hb3]

/-- Witness for C1 (amended) at lat with the invalid treebank xxx. -/
theorem C1_amended_invalid_treebank_witness :
    StanzaWrapper.init specExt (fsConst true) (fsConst true) "lat" (some "xxx") "ERROR" =
      (.error (.unimplementedLanguage "lat" "xxx"), []) :=
  C1_amended_invalid_treebank specExt (fsConst true) (fsConst true)
    "lat" "Latin" "la" "xxx" "ERROR" rfl rfl (Or.inr rfl) (by decide) (by decide)

/-- Claim C9: when the language is not cached and construction raises
any error, `get_nlp` propagates that error, performs exactly the side
effects of the failed construction, and returns the cache unchanged —
no entry for the language is added. -/
theorem C9_error_leaves_cache_unchanged (ext : Ext) (fs0 fs1 : String → Bool)
    (cache : Cache) (language : String) (treebank : Option String)
    (e : CtorError) (trace : List Event)
    (hmiss : cache.lookup language = none)
    (herr : StanzaWrapper.init ext fs0 fs1 language treebank "ERROR" =
      (.error e, trace)) :
    get_nlp ext fs0 fs1 cache language treebank = (.error e, cache, trace) := by
  unfold get_nlp
  rw [hmiss, herr]

/-- Witness for C9 at the unsupported language xxx with an empty
cache. -/
theorem C9_error_leaves_cache_unchanged_witness :
    get_nlp specExt (fsConst true) (fsConst true) [] "xxx" none =
      (.error (.unknownLanguage "xxx"), [], []) :=
  C9_error_leaves_cache_unchanged specExt (fsConst true) (fsConst true)
    [] "xxx" none (.unknownLanguage "xxx") [] rfl rfl

/-- Claim C2: once a call to `get_nlp` has returned a wrapper for a
language, a second call for the same language — with any treebank
argument, any external tables and any filesystem state — returns the
identical cached wrapper, leaves the cache unchanged, and performs no
side effects (no construction). -/
theorem C2_second_call_returns_cached (ext ext2 : Ext)
    (fs0 fs1 fs2 fs3 : String → Bool) (cache cache2 : Cache)
    (language : String) (t1 t2 : Option String)
    (w : StanzaWrapper) (trace : List Event)
    (h : get_nlp ext fs0 fs1 cache language t1 = (.ok w, cache2, trace)) :
    get_nlp ext2 fs2 fs3 cache2 language t2 = (.ok w, cache2, []) := by
  unfold get_nlp at h ⊢
  cases hl : cache.lookup language with
  | some nlp =>
      rw [hl] at h
      simp only [Prod.mk.injEq, Except.ok.injEq] at h
      obtain ⟨h1, h2, h3⟩ := h
      subst h1
      subst h2
      rw [hl]
  | none =>
      rw [hl] at h
      cases hi : StanzaWrapper.init ext fs0 fs1 language t1 "ERROR" with
      | mk r tr =>
        rw [hi] at h
        cases r with
        | ok nlp =>
            simp only [Prod.mk.injEq, Except.ok.injEq] at h
            obtain ⟨h1, h2, h3⟩ := h
            subst h1
            subst h2
            simp [List.lookup]
        | error e => simp at h

/-- The wrapper that a first `get_nlp` call for grc with treebank
perseus constructs (used to instantiate the caching claim). -/
def grcPerseusWrapper : StanzaWrapper :=
  built_wrapper specExt "grc" "grc" "perseus" "ERROR"

/-- Witness for C2: with grc cached under treebank perseus, a second
call asking for treebank proiel returns the cached perseus wrapper
unchanged, with no side effects. -/
theorem C2_second_call_returns_cached_witness :
    get_nlp specExt (fsConst true) (fsConst true)
      [("grc", grcPerseusWrapper)] "grc" (some "proiel") =
      (.ok grcPerseusWrapper, [("grc", grcPerseusWrapper)], []) :=
  C2_second_call_returns_cached specExt specExt
    (fsConst true) (fsConst true) (fsConst true) (fsConst true)
    [] [("grc", grcPerseusWrapper)] "grc" (some "perseus") (some "proiel")
    grcPerseusWrapper
    [Event.loadPipeline (load_pipeline specExt "grc" "grc" "perseus" "ERROR")]
    rfl

/-- Claim C4: when construction reaches the model check and the
artifact is absent, the downloader is invoked exactly once; and if the
file is still absent after that single attempt, construction fails with
`FileNotFoundError` (so no retry occurs). -/
theorem C4_download_exactly_once (ext : Ext) (fs0 fs1 : String → Bool)
    (language : String) (treebank : Option String) (lvl name code tb : String)
    (hmap : map_langs_cltk_stanza language = some name)
    (hcode : ext.lang2lcode name = some code)
    (htb : resolve_treebank ext language code treebank = .ok tb)
    (habsent : fs0 (model_path ext code tb) = false) :
    downloadCount (StanzaWrapper.init ext fs0 fs1 language treebank lvl).2 = 1 ∧
    (fs1 (model_path ext code tb) = false →
      (StanzaWrapper.init ext fs0 fs1 language treebank lvl).1 =
        .error (.fileNotFound (model_path ext code tb))) := by
  have havail : is_wrapper_available language = true := by
    simp [is_wrapper_available, hmap]
  have hsc : get_stanza_code ext language = .ok code := by
    simp [get_stanza_code, hmap, hcode]
  by_cases hfs1 : fs1 (model_path ext code tb) = true
  · constructor
    · simp [StanzaWrapper.init, havail, hsc, htb, habsent, hfs1,
        downloadCount, List.countP, List.countP.go]
    · intro hcontra
      rw [hcontra] at hfs1
      exact absurd hfs1 (by simp)
  · have hfs1f : fs1 (model_path ext code tb) = false := by
      simpa using hfs1
    constructor
    · simp [StanzaWrapper.init, havail, hsc, htb, habsent, hfs1f,
        downloadCount, List.countP, List.countP.go]
    · intro _
      simp [StanzaWrapper.init, havail, hsc, htb, habsent, hfs1f]

/-- Witness for C4 at grc with an empty filesystem before and after
the download. -/
theorem C4_download_exactly_once_witness :
    downloadCount
      (StanzaWrapper.init specExt (fsConst false) (fsConst false)
        "grc" none "ERROR").2 = 1 ∧
    (StanzaWrapper.init specExt (fsConst false) (fsConst false)
      "grc" none "ERROR").1 =
      .error (.fileNotFound (model_path specExt "grc" "proiel")) :=
  have h := C4_download_exactly_once specExt (fsConst false) (fsConst false)
    "grc" none "ERROR" "Ancient_Greek" "grc" "proiel" rfl rfl rfl rfl
  ⟨h.1, h.2 rfl⟩

/-- Claim C5: when the artifact file already exists at the expected
path, construction performs no download-related side effect — the
trace is exactly the single pipeline construction, with no downloader
invocation and no printed notice — and succeeds with the built
wrapper. -/
theorem C5_no_download_when_present (ext : Ext) (fs0 fs1 : String → Bool)
    (language : String) (treebank : Option String) (lvl name code tb : String)
    (hmap : map_langs_cltk_stanza language = some name)
    (hcode : ext.lang2lcode name = some code)
    (htb : resolve_treebank ext language code treebank = .ok tb)
    (hpresent : fs0 (model_path ext code tb) = true) :
    StanzaWrapper.init ext fs0 fs1 language treebank lvl =
      (.ok (built_wrapper ext language code tb lvl),
       [.loadPipeline (load_pipeline ext language code tb lvl)]) := by
  have havail : is_wrapper_available language = true := by
    simp [is_wrapper_available, hmap]
  have hsc : get_stanza_code ext language = .ok code := by
    simp [get_stanza_code, hmap, hcode]
  simp [StanzaWrapper.init, havail, hsc, htb, hpresent]

/-- Witness for C5 at grc with the artifact present. -/
theorem C5_no_download_when_present_witness :
    StanzaWrapper.init specExt (fsConst true) (fsConst true) "grc" none "ERROR" =
      (.ok (built_wrapper specExt "grc" "grc" "proiel" "ERROR"),
       [.loadPipeline (load_pipeline specExt "grc" "grc" "proiel" "ERROR")]) :=
  C5_no_download_when_present specExt (fsConst true) (fsConst true)
    "grc" none "ERROR" "Ancient_Greek" "grc" "proiel" rfl rfl rfl rfl

/-- Claim C6: constructing with no treebank argument resolves the
treebank to the entry of the external default-treebank table at the
resolved stanza code, and the constructed instance carries exactly that
treebank and that stanza code. -/
theorem C6_default_treebank (ext : Ext) (fs0 fs1 : String → Bool)
    (language lvl name code tbdef : String)
    (hmap : map_langs_cltk_stanza language = some name)
    (hcode : ext.lang2lcode name = some code)
    (hdef : ext.default_treebanks code = some tbdef)
    (hpresent : fs0 (model_path ext code tbdef) = true) :
    ∃ w, (StanzaWrapper.init ext fs0 fs1 language none lvl).1 = .ok w ∧
      w.treebank = tbdef ∧ w.stanza_code = code := by
  have havail : is_wrapper_available language = true := by
    simp [is_wrapper_available, hmap]
  have hsc : get_stanza_code ext language = .ok code := by
    simp [get_stanza_code, hmap, hcode]
  have htb : resolve_treebank ext language code none = .ok tbdef := by
    simp [resolve_treebank, treebank_truthy, get_default_treebank, hdef]
  refine ⟨built_wrapper ext language code tbdef lvl, ?_, rfl, rfl⟩
  simp [StanzaWrapper.init, havail, hsc, htb, hpresent]

/-- Witness for C6 at grc, whose default treebank is proiel. -/
theorem C6_default_treebank_witness :
    ∃ w, (StanzaWrapper.init specExt (fsConst true) (fsConst true)
        "grc" none "ERROR").1 = .ok w ∧
      w.treebank = "proiel" ∧ w.stanza_code = "grc" :=
  C6_default_treebank specExt (fsConst true) (fsConst true)
    "grc" "ERROR" "Ancient_Greek" "grc" "proiel" rfl rfl rfl rfl

/-- Claim C7: every successfully constructed wrapper holds a pipeline
built with the reduced processor list tokenize,pos,lemma and identity
lemmatization exactly when the language is fro, and with the full list
tokenize,mwt,pos,lemma,depparse and ordinary lemmatization for every
other language. -/
theorem C7_processor_selection (ext : Ext) (fs0 fs1 : String → Bool)
    (language : String) (treebank : Option String) (lvl : String)
    (w : StanzaWrapper) (trace : List Event)
    (h : StanzaWrapper.init ext fs0 fs1 language treebank lvl = (.ok w, trace)) :
    (language = "fro" →
      w.nlp.processors = "tokenize,pos,lemma" ∧
        w.nlp.lemma_use_identity = true) ∧
    (language ≠ "fro" →
      w.nlp.processors = "tokenize,mwt,pos,lemma,depparse" ∧
        w.nlp.lemma_use_identity = false) := by
  obtain ⟨-, -, -, -, -, hnlp⟩ :=
    init_ok_inversion ext fs0 fs1 language treebank lvl w trace h
  constructor
  · intro hf
    subst hf
    rw [hnlp]
    simp [load_pipeline]
  · intro hnf
    rw [hnlp]
    simp [load_pipeline, hnf]

/-- Witness for C7 at fro, the one reduced-pipeline language. -/
theorem C7_processor_selection_witness :
    (built_wrapper specExt "fro" "fro" "srcmf" "ERROR").nlp.processors =
        "tokenize,pos,lemma" ∧
      (built_wrapper specExt "fro" "fro" "srcmf" "ERROR").nlp.lemma_use_identity =
        true :=
  (C7_processor_selection specExt (fsConst true) (fsConst true) "fro" none "ERROR"
    (built_wrapper specExt "fro" "fro" "srcmf" "ERROR")
    [Event.loadPipeline (load_pipeline specExt "fro" "fro" "srcmf" "ERROR")]
    rfl).1 rfl

/-- Claim C8: every successfully constructed wrapper has its model path
equal to home, then stanza_resources, then the stanza code obtained
from the two-stage mapping (not the CLTK-internal code), then tokenize,
then the treebank with extension pt. -/
theorem C8_model_path_layout (ext : Ext) (fs0 fs1 : String → Bool)
    (language : String) (treebank : Option String) (lvl : String)
    (w : StanzaWrapper) (trace : List Event)
    (h : StanzaWrapper.init ext fs0 fs1 language treebank lvl = (.ok w, trace)) :
    ∃ name, map_langs_cltk_stanza language = some name ∧
      ext.lang2lcode name = some w.stanza_code ∧
      w.model_path = ext.homeDir ++ "/stanza_resources/" ++ w.stanza_code ++
        "/tokenize/" ++ w.treebank ++ ".pt" := by
  obtain ⟨-, -, hsc, -, hpath, -⟩ :=
    init_ok_inversion ext fs0 fs1 language treebank lvl w trace h
  unfold get_stanza_code at hsc
  cases hm : map_langs_cltk_stanza language with
  | none =>
      rw [hm] at hsc
      simp at hsc
  | some name =>
      rw [hm] at hsc
      cases hc : ext.lang2lcode name with
      | none =>
          simp only [hc] at hsc
          exact absurd hsc (by simp)
      | some code =>
          simp only [hc, Except.ok.injEq] at hsc
          subst hsc
          exact ⟨name, rfl, hc, by simpa [model_path] using hpath⟩

/-- Witness for C8 at lat, whose stanza code la differs from the CLTK
code. -/
theorem C8_model_path_layout_witness :
    ∃ name, map_langs_cltk_stanza "lat" = some name ∧
      specExt.lang2lcode name =
        some (built_wrapper specExt "lat" "la" "ittb" "ERROR").stanza_code ∧
      (built_wrapper specExt "lat" "la" "ittb" "ERROR").model_path =
        specExt.homeDir ++ "/stanza_resources/" ++
          (built_wrapper specExt "lat" "la" "ittb" "ERROR").stanza_code ++
          "/tokenize/" ++
          (built_wrapper specExt "lat" "la" "ittb" "ERROR").treebank ++ ".pt" :=
  C8_model_path_layout specExt (fsConst true) (fsConst true) "lat" none "ERROR"
    (built_wrapper specExt "lat" "la" "ittb" "ERROR")
    [Event.loadPipeline (load_pipeline specExt "lat" "la" "ittb" "ERROR")]
    rfl

/-- Claim C10: when a download is triggered, the downloader receives
the CLTK-internal language code (every download event in the trace
carries exactly the constructor language and the resolved treebank),
while the checked path is built from the stanza code; hence whenever
the two codes differ, the code passed to the downloader differs from
the code in the checked path. -/
theorem C10_downloader_gets_cltk_code (ext : Ext) (fs0 fs1 : String → Bool)
    (language : String) (treebank : Option String) (lvl name code tb : String)
    (hmap : map_langs_cltk_stanza language = some name)
    (hcode : ext.lang2lcode name = some code)
    (htb : resolve_treebank ext language code treebank = .ok tb)
    (habsent : fs0 (model_path ext code tb) = false) :
    Event.download language tb ∈
      (StanzaWrapper.init ext fs0 fs1 language treebank lvl).2 ∧
    (∀ l p, Event.download l p ∈
        (StanzaWrapper.init ext fs0 fs1 language treebank lvl).2 →
      l = language ∧ p = tb) ∧
    (language ≠ code →
      ∀ l p, Event.download l p ∈
          (StanzaWrapper.init ext fs0 fs1 language treebank lvl).2 →
        l ≠ code) := by
  have havail : is_wrapper_available language = true := by
    simp [is_wrapper_available, hmap]
  have hsc : get_stanza_code ext language = .ok code := by
    simp [get_stanza_code, hmap, hcode]
  have hmem : Event.download language tb ∈
      (StanzaWrapper.init ext fs0 fs1 language treebank lvl).2 := by
    by_cases hfs1 : fs1 (model_path ext code tb) <;>
      simp [StanzaWrapper.init, havail, hsc, htb, habsent, hfs1]
  have hall : ∀ l p, Event.download l p ∈
      (StanzaWrapper.init ext fs0 fs1 language treebank lvl).2 →
      l = language ∧ p = tb := by
    intro l p hm
    by_cases hfs1 : fs1 (model_path ext code tb) <;>
      simp [StanzaWrapper.init, havail, hsc, htb, habsent, hfs1] at hm <;>
      exact hm
  exact ⟨hmem, hall, fun hne l p hm => by
    rw [(hall l p hm).1]
    exact hne⟩

/-- Witness for C10 at lat: the download event carries lat while the
checked path uses la. -/
theorem C10_downloader_gets_cltk_code_witness :
    Event.download "lat" "ittb" ∈
      (StanzaWrapper.init specExt (fsConst false) (fsConst false)
        "lat" none "ERROR").2 ∧
    ("lat" : String) ≠ "la" :=
  ⟨(C10_downloader_gets_cltk_code specExt (fsConst false) (fsConst false)
      "lat" none "ERROR" "Latin" "la" "ittb" rfl rfl rfl rfl).1, by decide⟩

end CltkStanza
